import Mathlib

/-!
Verification development for the "People I Have Met" CRUD application.

The repository is a Remix application over a hosted table store (table
`people`) and a blob store (bucket `portraits`). This file is a shallow
embedding of its server-side route handlers and of the client-side image
pre-processor:

* `compressImageWith` embeds `compressImage` from `app/utils/imageCompression.ts`,
  with the third-party re-encoder modelled as an explicit `compressor` oracle
  returning `Except` (the library call can throw).
* `createAction` embeds the `action` of `app/routes/people.new.tsx`.
* `updateAction` embeds the `action` of `app/routes/people.$id.edit.tsx`.
* `detailAction` embeds the `action` of `app/routes/people.$id.tsx`
  (the delete path).
* `peopleLoader` embeds the `loader` of the people list route.

Remote-call outcomes (upload / insert / update / delete errors, the result of
the photo-url pre-select, the success of best-effort blob removal) are
supplied by small environment records, since the hosted store is an external
collaborator. Each handler returns the response it would send together with
the ordered trace of storage operations it attempted, so that claims about
"no storage side effects" and about operation order are plain equations on
the trace.

JavaScript truthiness is modelled faithfully where the handlers rely on it:
`formData.get` returns `null`, a string, or a `File`; `null` and the empty
string are falsy, every `File` object is truthy; `.size` on a non-file value
compares as `undefined > 0 = false`.
-/

namespace PeopleIveMet

/-- A browser `File` as far as the handlers inspect it: name, MIME type,
byte size. -/
structure PFile where
  name : String
  type : String
  size : Nat
deriving Repr, DecidableEq

/-- A multipart form entry value: `formData.get` yields a string or a `File`
(or `null`, modelled by `Option` at the use sites). -/
inductive FormValue where
  | str (s : String)
  | file (f : PFile)
deriving Repr, DecidableEq

/-- JavaScript `.toString()` on a form value: strings are themselves, a
`File` stringifies to "[object File]". -/
def FormValue.toStr : FormValue → String
  | FormValue.str s => s
  | FormValue.file _ => "[object File]"

/-- A submitted multipart form, as an association list of field names to
values. -/
abbrev FormData := List (String × FormValue)

/-- `formData.get(k)`: the first entry named `k`, if any. -/
def getField (fd : FormData) (k : String) : Option FormValue :=
  (fd.find? (fun p => decide (p.1 = k))).map (fun p => p.2)

/-- JavaScript truthiness of a `formData.get` result: `null` and `""` are
falsy, any other string and every `File` are truthy. -/
def jsTruthy : Option FormValue → Bool
  | none => false
  | some (FormValue.str s) => decide (s ≠ "")
  | some (FormValue.file _) => true

/-- The handlers read `formData.get("name")?.toString()`. -/
def submittedName (fd : FormData) : Option String :=
  (getField fd "name").map FormValue.toStr

/-- The `if (!name)` validation test: true when the name field is absent or
stringifies to the empty string. -/
def nameFalsy (fd : FormData) : Bool :=
  match submittedName fd with
  | none => true
  | some s => decide (s = "")

/-- `formData.get(k)?.toString() || null`: absent or empty-string fields
become `null`. -/
def optField (fd : FormData) (k : String) : Option String :=
  match getField fd k with
  | none => none
  | some v => if v.toStr = "" then none else some v.toStr

/-- `const photoToUpload = compressedPhoto || photo` followed by the guard
`photoToUpload && photoToUpload.size > 0`: the compressed field is preferred
whenever it is truthy; the branch is taken only when the chosen value is a
`File` of non-zero size (on a string value, `.size` is `undefined`, and
`undefined > 0` is false). -/
def resolvedPhoto (fd : FormData) : Option PFile :=
  let compressedPhoto := getField fd "compressedPhoto"
  let photo := getField fd "photo"
  let photoToUpload := if jsTruthy compressedPhoto then compressedPhoto else photo
  match photoToUpload with
  | some (FormValue.file f) => if 0 < f.size then some f else none
  | _ => none

/-- JavaScript `url.split("/")`, over the character list: split at every
slash, keeping empty segments, so that concrete instances evaluate inside
the kernel. -/
def splitOnSlash : List Char → List (List Char)
  | [] => [[]]
  | c :: cs =>
      match splitOnSlash cs with
      | [] => if c = '/' then [[], []] else [[c]]
      | r :: rs => if c = '/' then [] :: r :: rs else (c :: r) :: rs

/-- `url.split("/")` and take the last element. -/
def lastPathSegment (url : String) : String :=
  String.mk ((splitOnSlash url.data).getLastD [])

/-- `supabase.storage.from(bucket).getPublicUrl(key).data.publicUrl`,
modelled as a derived URL of the hosted store. -/
def publicUrl (bucket key : String) : String :=
  "https://store.example/storage/v1/object/public/" ++ bucket ++ "/" ++ key

/-- JavaScript `s.startsWith(p)`, spelled over the character lists of the
two strings so that concrete instances evaluate inside the kernel. -/
def strStartsWith (s p : String) : Bool :=
  p.data.isPrefixOf s.data

/-- Truthiness of a nullable string column such as `photo_url`. -/
def urlTruthy : Option String → Bool
  | none => false
  | some s => decide (s ≠ "")

/-- `existingPerson?.photo_url` where the select may have produced no row. -/
def flattenSelect : Option (Option String) → Option String
  | none => none
  | some u => u

end PeopleIveMet

namespace PeopleIveMet

/-- The image pre-processor `compressImage(imageFile, maxSizeKB)`, with the
third-party re-encoding call abstracted as `compressor` (which may throw,
hence `Except`). Mirrors `app/utils/imageCompression.ts` line by line:
skip non-images and small files; on a thrown error return the original; if
the result grew, return the original. -/
def compressImageWith (compressor : PFile → Except String PFile)
    (imageFile : PFile) (maxSizeKB : Nat) : PFile :=
  if strStartsWith imageFile.type "image/" = false ∨ imageFile.size ≤ maxSizeKB * 1024 then
    imageFile
  else
    match compressor imageFile with
    | Except.error _ => imageFile
    | Except.ok compressedFile =>
        if imageFile.size < compressedFile.size then imageFile else compressedFile

/-- `compressImage` with its default argument `maxSizeKB = 300`. -/
def compressImage (compressor : PFile → Except String PFile) (imageFile : PFile) : PFile :=
  compressImageWith compressor imageFile 300

/-- The field payload of a `people` insert, as built by the create action. -/
structure PersonInsert where
  name : String
  location : Option String
  context : Option String
  their_story : Option String
  date_met : Option String
  message_to_the_world : Option String
  photo_url : Option String
deriving Repr, DecidableEq

/-- The `updateData` patch of the edit action. `photo_url = none` means the
field is omitted from the patch (left untouched by the store);
`photo_url = some v` means the patch sets the column to `v`. -/
structure PersonPatch where
  name : String
  location : Option String
  context : Option String
  their_story : Option String
  date_met : Option String
  message_to_the_world : Option String
  photo_url : Option (Option String)
deriving Repr, DecidableEq

/-- A persisted row of table `people`: the insert payload plus the
store-assigned `id` and `created_at`. -/
structure PersonRow where
  id : String
  name : String
  location : Option String
  context : Option String
  their_story : Option String
  date_met : Option String
  message_to_the_world : Option String
  photo_url : Option String
  created_at : String
deriving Repr, DecidableEq

/-- The row the store persists for an insert payload, with its assigned
identifier and timestamp. -/
def insertedRow (ins : PersonInsert) (id createdAt : String) : PersonRow :=
  { id := id
    name := ins.name
    location := ins.location
    context := ins.context
    their_story := ins.their_story
    date_met := ins.date_met
    message_to_the_world := ins.message_to_the_world
    photo_url := ins.photo_url
    created_at := createdAt }

/-- How the store applies an update patch to a row: named columns are
overwritten; a `photo_url` omitted from the patch is left unchanged. -/
def applyPatch (r : PersonRow) (p : PersonPatch) : PersonRow :=
  { r with
    name := p.name
    location := p.location
    context := p.context
    their_story := p.their_story
    date_met := p.date_met
    message_to_the_world := p.message_to_the_world
    photo_url := p.photo_url.getD r.photo_url }

/-- `select("*").eq("id", id).single()` over a table of rows. -/
def selectPersonById (rows : List PersonRow) (id : String) : Option PersonRow :=
  rows.find? (fun r => decide (r.id = id))

/-- The HTTP-level outcome a handler returns. -/
inductive Response where
  | redirect (target : String)
  | fieldErrors (errs : List (String × String))
  | errorMsg (status : Nat) (msg : String)
deriving Repr, DecidableEq

/-- One attempted storage operation, in the order the handler issues them.
`removeBlob` records whether the best-effort removal succeeded. -/
inductive Effect where
  | selectRow (id : String)
  | uploadBlob (bucket key : String)
  | insertRow (ins : PersonInsert)
  | updateRow (id : String) (patch : PersonPatch)
  | deleteRow (id : String)
  | removeBlob (bucket key : String) (ok : Bool)
deriving Repr, DecidableEq

/-- Remote-call outcomes available to the create action: the generated
`uuid()` and the errors (if any) of the blob upload and the row insert. -/
structure CreateEnv where
  uuid : String
  uploadError : Option String
  insertError : Option String
deriving Repr, DecidableEq

/-- The non-photo part of the tuple the create action inserts, each optional
field passed through as submitted-or-null. -/
def parsedInsert (fd : FormData) : PersonInsert :=
  { name := (submittedName fd).getD ""
    location := optField fd "location"
    context := optField fd "context"
    their_story := optField fd "their_story"
    date_met := optField fd "date_met"
    message_to_the_world := optField fd "message_to_the_world"
    photo_url := none }

/-- The `action` of `app/routes/people.new.tsx`: validate `name`, optionally
upload the photo and resolve its public URL, insert the row, redirect to
`/people`. Returns the response and the trace of attempted storage
operations. -/
def createAction (env : CreateEnv) (fd : FormData) : Response × List Effect :=
  if nameFalsy fd then
    (Response.fieldErrors [("name", "Name is required")], [])
  else
    match resolvedPhoto fd with
    | some f =>
        let filename := env.uuid ++ "-" ++ f.name
        match env.uploadError with
        | some msg =>
            (Response.errorMsg 200 ("Failed to upload photo: " ++ msg),
             [Effect.uploadBlob "portraits" filename])
        | none =>
            let ins := { parsedInsert fd with
                         photo_url := some (publicUrl "portraits" filename) }
            match env.insertError with
            | some msg =>
                (Response.errorMsg 200 ("Failed to add person: " ++ msg),
                 [Effect.uploadBlob "portraits" filename, Effect.insertRow ins])
            | none =>
                (Response.redirect "/people",
                 [Effect.uploadBlob "portraits" filename, Effect.insertRow ins])
    | none =>
        match env.insertError with
        | some msg =>
            (Response.errorMsg 200 ("Failed to add person: " ++ msg),
             [Effect.insertRow (parsedInsert fd)])
        | none =>
            (Response.redirect "/people", [Effect.insertRow (parsedInsert fd)])

/-- Remote-call outcomes available to the edit action: the generated
`uuid()`, the result of the pre-select of the existing `photo_url`
(`none` = no row came back, errors being discarded by the destructuring),
the upload and update errors, and whether the best-effort removal of the
prior blob succeeded. -/
structure UpdateEnv where
  uuid : String
  priorSelect : Option (Option String)
  uploadError : Option String
  updateError : Option String
  removeBlobOk : Bool
deriving Repr, DecidableEq

/-- The `updateData` object before any photo handling: all named columns,
`photo_url` not yet present. -/
def parsedPatch (fd : FormData) : PersonPatch :=
  { name := (submittedName fd).getD ""
    location := optField fd "location"
    context := optField fd "context"
    their_story := optField fd "their_story"
    date_met := optField fd "date_met"
    message_to_the_world := optField fd "message_to_the_world"
    photo_url := none }

/-- `formData.get("keepExistingPhoto") === "true"`. -/
def keepExistingPhotoFlag (fd : FormData) : Bool :=
  decide (getField fd "keepExistingPhoto" = some (FormValue.str "true"))

/-- The `action` of `app/routes/people.$id.edit.tsx`: validate `name`; if a
new photo is present, pre-select the old `photo_url`, upload the new blob,
set the patch url to its public URL and best-effort remove the old blob
unless the keep flag is set; with no new photo, null the url unless the keep
flag is set; finally patch the row and redirect to `/people/{id}`. -/
def updateAction (env : UpdateEnv) (id : Option String) (fd : FormData) :
    Response × List Effect :=
  match id with
  | none => (Response.errorMsg 400 "Person ID is required", [])
  | some i =>
      if nameFalsy fd then
        (Response.fieldErrors [("name", "Name is required")], [])
      else
        match resolvedPhoto fd with
        | some f =>
            let filename := env.uuid ++ "-" ++ f.name
            match env.uploadError with
            | some msg =>
                (Response.errorMsg 200 ("Failed to upload photo: " ++ msg),
                 [Effect.selectRow i, Effect.uploadBlob "portraits" filename])
            | none =>
                let patch := { parsedPatch fd with
                               photo_url := some (some (publicUrl "portraits" filename)) }
                let cleanup :=
                  if urlTruthy (flattenSelect env.priorSelect) && !keepExistingPhotoFlag fd then
                    [Effect.removeBlob "portraits"
                      (lastPathSegment ((flattenSelect env.priorSelect).getD ""))
                      env.removeBlobOk]
                  else []
                let effs := [Effect.selectRow i, Effect.uploadBlob "portraits" filename] ++
                  cleanup ++ [Effect.updateRow i patch]
                match env.updateError with
                | some msg =>
                    (Response.errorMsg 200 ("Failed to update person: " ++ msg), effs)
                | none => (Response.redirect ("/people/" ++ i), effs)
        | none =>
            let patch :=
              if keepExistingPhotoFlag fd then parsedPatch fd
              else { parsedPatch fd with photo_url := some none }
            match env.updateError with
            | some msg =>
                (Response.errorMsg 200 ("Failed to update person: " ++ msg),
                 [Effect.updateRow i patch])
            | none =>
                (Response.redirect ("/people/" ++ i), [Effect.updateRow i patch])

/-- Remote-call outcomes available to the detail-route action: the result of
the `photo_url` pre-select, the row-delete error, and whether the
best-effort blob removal succeeded. -/
structure DetailEnv where
  priorSelect : Option (Option String)
  deleteError : Option String
  removeBlobOk : Bool
deriving Repr, DecidableEq

/-- The `action` of `app/routes/people.$id.tsx`: on `intent = "delete"`,
pre-select the `photo_url`, delete the row, then best-effort remove the
blob named by the last path segment of that url; redirect to `/people`.
Any other intent is rejected with status 400. -/
def detailAction (env : DetailEnv) (id : Option String) (fd : FormData) :
    Response × List Effect :=
  match id with
  | none => (Response.errorMsg 400 "Person ID is required", [])
  | some i =>
      if getField fd "intent" = some (FormValue.str "delete") then
        let priorUrl := flattenSelect env.priorSelect
        match env.deleteError with
        | some msg =>
            (Response.errorMsg 500 ("Failed to delete: " ++ msg),
             [Effect.selectRow i, Effect.deleteRow i])
        | none =>
            let cleanup :=
              if urlTruthy priorUrl then
                [Effect.removeBlob "portraits" (lastPathSegment (priorUrl.getD ""))
                  env.removeBlobOk]
              else []
            (Response.redirect "/people", [Effect.selectRow i, Effect.deleteRow i] ++ cleanup)
      else (Response.errorMsg 400 "Invalid action", [])

/-- The `{ data, error }` shape of the list-route select. -/
structure SelectListResult where
  data : Option (List PersonRow)
  error : Option String
deriving Repr, DecidableEq

/-- The `loader` of the people list route: on a store error return an empty
list (logged only); otherwise `data || []`. -/
def peopleLoader (res : SelectListResult) : List PersonRow :=
  match res.error with
  | some _ => []
  | none => res.data.getD []

/-- C8: for every input file whose MIME type does not start with "image/"
or whose size is at most `maxSizeKB * 1024` bytes, `compressImage` returns
the input file itself unchanged; the default ceiling is 300 KB. -/
theorem compressImage_skip_small_or_nonimage
    (compressor : PFile → Except String PFile) (imageFile : PFile) (maxSizeKB : Nat)
    (h : strStartsWith imageFile.type "image/" = false ∨ imageFile.size ≤ maxSizeKB * 1024) :
    compressImageWith compressor imageFile maxSizeKB = imageFile ∧
    compressImage compressor imageFile = compressImageWith compressor imageFile 300 := by
  refine ⟨?_, rfl⟩
  unfold compressImageWith
  rw [if_pos h]

/-- Witness for C8 at a concrete non-image file and a concrete small image. -/
theorem compressImage_skip_small_or_nonimage_witness :
    (compressImageWith (fun _ => Except.error "thrown") ⟨"a.txt", "text/plain", 999999⟩ 300 =
      ⟨"a.txt", "text/plain", 999999⟩) ∧
    (compressImageWith (fun _ => Except.error "thrown") ⟨"b.jpg", "image/jpeg", 1024⟩ 300 =
      ⟨"b.jpg", "image/jpeg", 1024⟩) :=
  ⟨(compressImage_skip_small_or_nonimage (fun _ => Except.error "thrown")
      ⟨"a.txt", "text/plain", 999999⟩ 300 (Or.inl (by decide))).1,
   (compressImage_skip_small_or_nonimage (fun _ => Except.error "thrown")
      ⟨"b.jpg", "image/jpeg", 1024⟩ 300 (Or.inr (by decide))).1⟩

/-- C9: if the underlying re-encoding throws, or if its result is strictly
larger than the input, `compressImage` returns the original input; for every
input the result is never larger than the input (and the function is total,
so no error reaches the caller). -/
theorem compressImage_fallback
    (compressor : PFile → Except String PFile) (imageFile : PFile) (maxSizeKB : Nat) :
    (∀ e, compressor imageFile = Except.error e →
      compressImageWith compressor imageFile maxSizeKB = imageFile) ∧
    (∀ g, compressor imageFile = Except.ok g → imageFile.size < g.size →
      compressImageWith compressor imageFile maxSizeKB = imageFile) ∧
    (compressImageWith compressor imageFile maxSizeKB).size ≤ imageFile.size := by
  unfold compressImageWith
  by_cases h : strStartsWith imageFile.type "image/" = false ∨ imageFile.size ≤ maxSizeKB * 1024
  · rw [if_pos h]
    exact ⟨fun _ _ => rfl, fun _ _ _ => rfl, Nat.le_refl _⟩
  · rw [if_neg h]
    refine ⟨?_, ?_, ?_⟩
    · intro e he
      simp [he]
    · intro g hg hlt
      simp [hg, hlt]
    · cases hc : compressor imageFile with
      | error e => simp
      | ok g =>
          by_cases hlt : imageFile.size < g.size
          · simp [hlt]
          · simp [hlt]
            exact Nat.le_of_not_lt hlt

/-- Witness for C9: a throwing re-encoder and a size-increasing re-encoder,
each on a concrete large image. -/
theorem compressImage_fallback_witness :
    (compressImageWith (fun _ => Except.error "thrown") ⟨"a.jpg", "image/jpeg", 400000⟩ 300 =
      ⟨"a.jpg", "image/jpeg", 400000⟩) ∧
    (compressImageWith (fun _ => Except.ok ⟨"a.jpg", "image/jpeg", 500000⟩)
      ⟨"a.jpg", "image/jpeg", 400000⟩ 300 = ⟨"a.jpg", "image/jpeg", 400000⟩) :=
  ⟨(compressImage_fallback (fun _ => Except.error "thrown")
      ⟨"a.jpg", "image/jpeg", 400000⟩ 300).1 "thrown" rfl,
   (compressImage_fallback (fun _ => Except.ok ⟨"a.jpg", "image/jpeg", 500000⟩)
      ⟨"a.jpg", "image/jpeg", 400000⟩ 300).2.1 ⟨"a.jpg", "image/jpeg", 500000⟩ rfl (by decide)⟩

/-- C10: the people list loader returns an empty list both when the store
reports an error and when the store returns a null data set; it never
surfaces a store failure (it always returns a plain list). -/
theorem peopleLoader_resilient (res : SelectListResult) :
    (∀ e, res.error = some e → peopleLoader res = []) ∧
    (res.data = none → peopleLoader res = []) := by
  constructor
  · intro e he
    unfold peopleLoader
    rw [he]
  · intro hd
    unfold peopleLoader
    cases h : res.error with
    | some e => rfl
    | none => rw [hd]; rfl

/-- Witness for C10 at a concrete erroring result and a concrete null data
set. -/
theorem peopleLoader_resilient_witness :
    peopleLoader ⟨some [], some "network down"⟩ = [] ∧
    peopleLoader ⟨none, none⟩ = [] :=
  ⟨(peopleLoader_resilient ⟨some [], some "network down"⟩).1 "network down" rfl,
   (peopleLoader_resilient ⟨none, none⟩).2 rfl⟩

/-- C1: a create or update submission whose name field is empty or absent
gets back exactly the field error `name = "Name is required"` and the
handler attempts no storage operation at all. -/
theorem missing_name_rejected_without_storage
    (cenv : CreateEnv) (uenv : UpdateEnv) (i : String) (fd : FormData)
    (h : nameFalsy fd = true) :
    createAction cenv fd = (Response.fieldErrors [("name", "Name is required")], []) ∧
    updateAction uenv (some i) fd = (Response.fieldErrors [("name", "Name is required")], []) := by
  constructor
  · simp [createAction, h]
  · simp [updateAction, h]

/-- Witness for C1 at the empty submission (no name field at all). -/
theorem missing_name_rejected_without_storage_witness :
    createAction ⟨"u1", none, none⟩ [] =
      (Response.fieldErrors [("name", "Name is required")], []) ∧
    updateAction ⟨"u1", none, none, none, true⟩ (some "7") [] =
      (Response.fieldErrors [("name", "Name is required")], []) :=
  missing_name_rejected_without_storage ⟨"u1", none, none⟩
    ⟨"u1", none, none, none, true⟩ "7" [] rfl

/-- C3 counterexample: at a concrete delete submission that succeeds, the
response redirects to "/people", not to "/people/42" as the claim requires
for the delete path. -/
theorem delete_redirect_counterexample :
    (detailAction ⟨some none, none, true⟩ (some "42")
      [("intent", FormValue.str "delete")]).1 = Response.redirect "/people" ∧
    (detailAction ⟨some none, none, true⟩ (some "42")
      [("intent", FormValue.str "delete")]).1 ≠ Response.redirect "/people/42" := by
  constructor
  · rfl
  · intro h
    have h2 : "/people" = "/people/42" := Response.redirect.inj (by rw [← h]; rfl)
    simp at h2

/-- C3 (amended): every successful submission redirects, to "/people" on the
create path, to "/people/{id}" on the update path, and to "/people" on the
delete path. -/
theorem success_redirect_targets
    (cenv : CreateEnv) (uenv : UpdateEnv) (denv : DetailEnv) (i : String)
    (fdc fdu fdd : FormData) :
    (nameFalsy fdc = false → cenv.uploadError = none → cenv.insertError = none →
      (createAction cenv fdc).1 = Response.redirect "/people") ∧
    (nameFalsy fdu = false → uenv.uploadError = none → uenv.updateError = none →
      (updateAction uenv (some i) fdu).1 = Response.redirect ("/people/" ++ i)) ∧
    (getField fdd "intent" = some (FormValue.str "delete") → denv.deleteError = none →
      (detailAction denv (some i) fdd).1 = Response.redirect "/people") := by
  refine ⟨?_, ?_, ?_⟩
  · intro hn hu hi
    cases hp : resolvedPhoto fdc with
    | some f => simp [createAction, hn, hp, hu, hi]
    | none => simp [createAction, hn, hp, hi]
  · intro hn hu hup
    cases hp : resolvedPhoto fdu with
    | some f => simp [updateAction, hn, hp, hu, hup]
    | none => simp [updateAction, hn, hp, hup]
  · intro hint hdel
    simp [detailAction, hint, hdel]

/-- Witness for the amended C3 at concrete successful create, update and
delete submissions. -/
theorem success_redirect_targets_witness :
    (createAction ⟨"u1", none, none⟩ [("name", FormValue.str "Alice")]).1 =
      Response.redirect "/people" ∧
    (updateAction ⟨"u1", none, none, none, true⟩ (some "7")
      [("name", FormValue.str "Bob")]).1 = Response.redirect "/people/7" ∧
    (detailAction ⟨some none, none, true⟩ (some "7")
      [("intent", FormValue.str "delete")]).1 = Response.redirect "/people" := by
  have h := success_redirect_targets ⟨"u1", none, none⟩ ⟨"u1", none, none, none, true⟩
    ⟨some none, none, true⟩ "7" [("name", FormValue.str "Alice")]
    [("name", FormValue.str "Bob")] [("intent", FormValue.str "delete")]
  exact ⟨h.1 rfl rfl rfl, h.2.1 rfl rfl rfl, h.2.2 rfl rfl⟩

/-- C4: on a delete-intent submission the handler first pre-selects the
photo url, then deletes the row, and only when the row delete succeeded and
the selected url was non-null does it best-effort remove the blob keyed by
the last path segment of that url; whether the removal succeeds or fails,
the response is still the success redirect, and a failed row delete returns
the error with no blob removal attempted. -/
theorem delete_order_and_best_effort
    (env : DetailEnv) (i : String) (fd : FormData)
    (hint : getField fd "intent" = some (FormValue.str "delete")) :
    (env.deleteError = none →
      detailAction env (some i) fd =
        (Response.redirect "/people",
         [Effect.selectRow i, Effect.deleteRow i] ++
           (if urlTruthy (flattenSelect env.priorSelect) then
              [Effect.removeBlob "portraits"
                (lastPathSegment ((flattenSelect env.priorSelect).getD ""))
                env.removeBlobOk]
            else []))) ∧
    (∀ msg, env.deleteError = some msg →
      detailAction env (some i) fd =
        (Response.errorMsg 500 ("Failed to delete: " ++ msg),
         [Effect.selectRow i, Effect.deleteRow i])) := by
  constructor
  · intro hdel
    simp [detailAction, hint, hdel]
  · intro msg hdel
    simp [detailAction, hint, hdel]

/-- Witness for C4 at a concrete row with a photo, once with a failing blob
removal (still redirected) and once with a failing row delete (no blob
removal attempted). -/
theorem delete_order_and_best_effort_witness :
    detailAction ⟨some (some "https://store.example/storage/v1/object/public/portraits/old.jpg"),
        none, false⟩ (some "42") [("intent", FormValue.str "delete")] =
      (Response.redirect "/people",
       [Effect.selectRow "42", Effect.deleteRow "42",
        Effect.removeBlob "portraits" "old.jpg" false]) ∧
    detailAction ⟨some (some "https://store.example/storage/v1/object/public/portraits/old.jpg"),
        some "boom", false⟩ (some "42") [("intent", FormValue.str "delete")] =
      (Response.errorMsg 500 "Failed to delete: boom",
       [Effect.selectRow "42", Effect.deleteRow "42"]) :=
  ⟨(delete_order_and_best_effort
      ⟨some (some "https://store.example/storage/v1/object/public/portraits/old.jpg"),
        none, false⟩ "42" [("intent", FormValue.str "delete")] rfl).1 rfl,
   (delete_order_and_best_effort
      ⟨some (some "https://store.example/storage/v1/object/public/portraits/old.jpg"),
        some "boom", false⟩ "42" [("intent", FormValue.str "delete")] rfl).2 "boom" rfl⟩

/-- C5: a failing storage step returns an error message and nothing further
is attempted: a failed upload aborts before any row write (create and
update), a failed insert triggers no compensating blob removal, a failed
update returns its error, and a failed row delete prevents the blob
removal. -/
theorem storage_failure_aborts
    (cenv : CreateEnv) (uenv : UpdateEnv) (denv : DetailEnv) (i : String)
    (fd fdd : FormData) (hname : nameFalsy fd = false) :
    (∀ f msg, resolvedPhoto fd = some f → cenv.uploadError = some msg →
      createAction cenv fd =
        (Response.errorMsg 200 ("Failed to upload photo: " ++ msg),
         [Effect.uploadBlob "portraits" (cenv.uuid ++ "-" ++ f.name)])) ∧
    (∀ msg, cenv.insertError = some msg → cenv.uploadError = none →
      (createAction cenv fd).1 = Response.errorMsg 200 ("Failed to add person: " ++ msg) ∧
      ∀ b k ok, Effect.removeBlob b k ok ∉ (createAction cenv fd).2) ∧
    (∀ f msg, resolvedPhoto fd = some f → uenv.uploadError = some msg →
      updateAction uenv (some i) fd =
        (Response.errorMsg 200 ("Failed to upload photo: " ++ msg),
         [Effect.selectRow i, Effect.uploadBlob "portraits" (uenv.uuid ++ "-" ++ f.name)])) ∧
    (∀ msg, uenv.updateError = some msg → uenv.uploadError = none →
      (updateAction uenv (some i) fd).1 =
        Response.errorMsg 200 ("Failed to update person: " ++ msg)) ∧
    (∀ msg, denv.deleteError = some msg →
      getField fdd "intent" = some (FormValue.str "delete") →
      detailAction denv (some i) fdd =
        (Response.errorMsg 500 ("Failed to delete: " ++ msg),
         [Effect.selectRow i, Effect.deleteRow i])) := by
  refine ⟨?_, ?_, ?_, ?_, ?_⟩
  · intro f msg hp hu
    simp [createAction, hname, hp, hu]
  · intro msg hins hup
    cases hp : resolvedPhoto fd with
    | some f => simp [createAction, hname, hp, hins, hup]
    | none => simp [createAction, hname, hp, hins]
  · intro f msg hp hu
    simp [updateAction, hname, hp, hu]
  · intro msg hupd hup
    cases hp : resolvedPhoto fd with
    | some f => simp [updateAction, hname, hp, hupd, hup]
    | none => simp [updateAction, hname, hp, hupd]
  · intro msg hdel hint
    simp [detailAction, hint, hdel]

/-- Witness for C5: concrete failing upload, insert and delete
submissions. -/
theorem storage_failure_aborts_witness :
    createAction ⟨"u1", some "disk full", none⟩
      [("name", FormValue.str "Alice"), ("photo", FormValue.file ⟨"p.jpg", "image/jpeg", 5⟩)] =
      (Response.errorMsg 200 "Failed to upload photo: disk full",
       [Effect.uploadBlob "portraits" "u1-p.jpg"]) ∧
    (createAction ⟨"u1", none, some "constraint"⟩
      [("name", FormValue.str "Alice"), ("photo", FormValue.file ⟨"p.jpg", "image/jpeg", 5⟩)]).1 =
      Response.errorMsg 200 "Failed to add person: constraint" ∧
    detailAction ⟨some (some "x/y.jpg"), some "boom", true⟩ (some "7")
      [("intent", FormValue.str "delete")] =
      (Response.errorMsg 500 "Failed to delete: boom",
       [Effect.selectRow "7", Effect.deleteRow "7"]) := by
  have h1 := storage_failure_aborts ⟨"u1", some "disk full", none⟩
    ⟨"u1", none, none, none, true⟩ ⟨some (some "x/y.jpg"), some "boom", true⟩ "7"
    [("name", FormValue.str "Alice"), ("photo", FormValue.file ⟨"p.jpg", "image/jpeg", 5⟩)]
    [("intent", FormValue.str "delete")] rfl
  have h2 := storage_failure_aborts ⟨"u1", none, some "constraint"⟩
    ⟨"u1", none, none, none, true⟩ ⟨some (some "x/y.jpg"), some "boom", true⟩ "7"
    [("name", FormValue.str "Alice"), ("photo", FormValue.file ⟨"p.jpg", "image/jpeg", 5⟩)]
    [("intent", FormValue.str "delete")] rfl
  exact ⟨h1.1 ⟨"p.jpg", "image/jpeg", 5⟩ "disk full" rfl rfl,
    (h2.2.1 "constraint" rfl rfl).1,
    h1.2.2.2.2 "boom" rfl rfl⟩

/-- C2: on a valid update submission the patch resolves `photo_url` by a
three-way branch: with a new non-zero photo the patch sets the public URL of
the fresh blob and, exactly when the prior row had a non-null url and the
keep flag is not "true", the blob keyed by the last path segment of the
prior url is best-effort removed; with no new photo and no keep flag the
patch nulls the column; with no new photo and the keep flag set the column
is omitted from the patch, so applying the patch leaves the stored url
unchanged. -/
theorem update_photo_url_resolution
    (env : UpdateEnv) (i : String) (fd : FormData)
    (hname : nameFalsy fd = false) :
    (∀ f, resolvedPhoto fd = some f → env.uploadError = none →
      (updateAction env (some i) fd).2 =
        [Effect.selectRow i,
         Effect.uploadBlob "portraits" (env.uuid ++ "-" ++ f.name)] ++
          (if urlTruthy (flattenSelect env.priorSelect) && !keepExistingPhotoFlag fd then
            [Effect.removeBlob "portraits"
              (lastPathSegment ((flattenSelect env.priorSelect).getD ""))
              env.removeBlobOk]
           else []) ++
          [Effect.updateRow i { parsedPatch fd with
            photo_url := some (some (publicUrl "portraits" (env.uuid ++ "-" ++ f.name))) }]) ∧
    (resolvedPhoto fd = none → keepExistingPhotoFlag fd = false →
      (updateAction env (some i) fd).2 =
        [Effect.updateRow i { parsedPatch fd with photo_url := some none }]) ∧
    (resolvedPhoto fd = none → keepExistingPhotoFlag fd = true →
      (updateAction env (some i) fd).2 = [Effect.updateRow i (parsedPatch fd)] ∧
      (parsedPatch fd).photo_url = none ∧
      ∀ r : PersonRow, (applyPatch r (parsedPatch fd)).photo_url = r.photo_url) := by
  refine ⟨?_, ?_, ?_⟩
  · intro f hp hu
    cases hupd : env.updateError with
    | some msg => simp [updateAction, hname, hp, hu, hupd]
    | none => simp [updateAction, hname, hp, hu, hupd]
  · intro hp hk
    cases hupd : env.updateError with
    | some msg => simp [updateAction, hname, hp, hk, hupd]
    | none => simp [updateAction, hname, hp, hk, hupd]
  · intro hp hk
    refine ⟨?_, rfl, fun r => rfl⟩
    cases hupd : env.updateError with
    | some msg => simp [updateAction, hname, hp, hk, hupd]
    | none => simp [updateAction, hname, hp, hk, hupd]

/-- Witness for C2: one concrete update with a new photo over an existing
one (old blob removed, new public URL patched), one with neither new photo
nor keep flag (url nulled), one with the keep flag (url omitted). -/
theorem update_photo_url_resolution_witness :
    (updateAction ⟨"u1", some (some "https://x/portraits/old.jpg"), none, none, true⟩
      (some "7")
      [("name", FormValue.str "Bob"), ("photo", FormValue.file ⟨"new.jpg", "image/jpeg", 9⟩)]).2 =
      [Effect.selectRow "7", Effect.uploadBlob "portraits" "u1-new.jpg",
       Effect.removeBlob "portraits" "old.jpg" true,
       Effect.updateRow "7"
         { name := "Bob", location := none, context := none, their_story := none,
           date_met := none, message_to_the_world := none,
           photo_url := some (some
             "https://store.example/storage/v1/object/public/portraits/u1-new.jpg") }] ∧
    (updateAction ⟨"u1", some (some "https://x/portraits/old.jpg"), none, none, true⟩
      (some "7") [("name", FormValue.str "Bob")]).2 =
      [Effect.updateRow "7"
         { name := "Bob", location := none, context := none, their_story := none,
           date_met := none, message_to_the_world := none, photo_url := some none }] ∧
    (updateAction ⟨"u1", some (some "https://x/portraits/old.jpg"), none, none, true⟩
      (some "7")
      [("name", FormValue.str "Bob"), ("keepExistingPhoto", FormValue.str "true")]).2 =
      [Effect.updateRow "7"
         { name := "Bob", location := none, context := none, their_story := none,
           date_met := none, message_to_the_world := none, photo_url := none }] := by
  have ha := update_photo_url_resolution
    ⟨"u1", some (some "https://x/portraits/old.jpg"), none, none, true⟩ "7"
    [("name", FormValue.str "Bob"), ("photo", FormValue.file ⟨"new.jpg", "image/jpeg", 9⟩)] rfl
  have hb := update_photo_url_resolution
    ⟨"u1", some (some "https://x/portraits/old.jpg"), none, none, true⟩ "7"
    [("name", FormValue.str "Bob")] rfl
  have hc := update_photo_url_resolution
    ⟨"u1", some (some "https://x/portraits/old.jpg"), none, none, true⟩ "7"
    [("name", FormValue.str "Bob"), ("keepExistingPhoto", FormValue.str "true")] rfl
  exact ⟨ha.1 ⟨"new.jpg", "image/jpeg", 9⟩ rfl rfl, hb.2.1 rfl rfl, (hc.2.2 rfl rfl).1⟩

/-- C6: on a valid create submission, when the resolved photo (the
compressed field preferred over the original whenever it is present and
non-empty) has non-zero size, it is uploaded to bucket "portraits" under
the key uuid-filename and the inserted row carries that public URL as its
photo url; with no non-zero photo the inserted row carries a null photo
url. -/
theorem create_photo_handling
    (env : CreateEnv) (fd : FormData)
    (hname : nameFalsy fd = false) (hin : env.insertError = none) :
    (∀ f, resolvedPhoto fd = some f → env.uploadError = none →
      createAction env fd =
        (Response.redirect "/people",
         [Effect.uploadBlob "portraits" (env.uuid ++ "-" ++ f.name),
          Effect.insertRow { parsedInsert fd with
            photo_url := some (publicUrl "portraits" (env.uuid ++ "-" ++ f.name)) }])) ∧
    (resolvedPhoto fd = none →
      createAction env fd =
        (Response.redirect "/people", [Effect.insertRow (parsedInsert fd)]) ∧
      (parsedInsert fd).photo_url = none) ∧
    (∀ cf, getField fd "compressedPhoto" = some (FormValue.file cf) → 0 < cf.size →
      resolvedPhoto fd = some cf) := by
  refine ⟨?_, ?_, ?_⟩
  · intro f hp hu
    simp [createAction, hname, hp, hu, hin]
  · intro hp
    exact ⟨by simp [createAction, hname, hp, hin], rfl⟩
  · intro cf hcf hsz
    simp [resolvedPhoto, hcf, jsTruthy, hsz]

/-- Witness for C6: a concrete create with both a compressed and an original
photo (the compressed one is uploaded) and a concrete create with no
photo. -/
theorem create_photo_handling_witness :
    createAction ⟨"u1", none, none⟩
      [("name", FormValue.str "Alice"),
       ("compressedPhoto", FormValue.file ⟨"c.jpg", "image/jpeg", 3⟩),
       ("photo", FormValue.file ⟨"p.jpg", "image/jpeg", 5⟩)] =
      (Response.redirect "/people",
       [Effect.uploadBlob "portraits" "u1-c.jpg",
        Effect.insertRow
          { name := "Alice", location := none, context := none, their_story := none,
            date_met := none, message_to_the_world := none,
            photo_url := some
              "https://store.example/storage/v1/object/public/portraits/u1-c.jpg" }]) ∧
    createAction ⟨"u1", none, none⟩ [("name", FormValue.str "Alice")] =
      (Response.redirect "/people",
       [Effect.insertRow
          { name := "Alice", location := none, context := none, their_story := none,
            date_met := none, message_to_the_world := none, photo_url := none }]) := by
  have ha := create_photo_handling ⟨"u1", none, none⟩
    [("name", FormValue.str "Alice"),
     ("compressedPhoto", FormValue.file ⟨"c.jpg", "image/jpeg", 3⟩),
     ("photo", FormValue.file ⟨"p.jpg", "image/jpeg", 5⟩)] rfl rfl
  have hb := create_photo_handling ⟨"u1", none, none⟩
    [("name", FormValue.str "Alice")] rfl rfl
  exact ⟨ha.1 ⟨"c.jpg", "image/jpeg", 3⟩ rfl rfl, (hb.2.1 rfl).1⟩

/-- Selecting by an identifier that no existing row carries finds exactly a
freshly appended row with that identifier. -/
theorem selectPersonById_append_fresh (rows : List PersonRow) (r : PersonRow)
    (hfresh : ∀ x ∈ rows, x.id ≠ r.id) :
    selectPersonById (rows ++ [r]) r.id = some r := by
  induction rows with
  | nil => simp [selectPersonById]
  | cons a as ih =>
      have ha : a.id ≠ r.id := hfresh a (List.mem_cons_self a as)
      have ih2 := ih (fun x hx => hfresh x (List.mem_cons_of_mem a hx))
      simpa [selectPersonById, List.find?_cons, ha] using ih2

/-- C7: a valid create submission inserts a row whose name and optional
fields are exactly the submitted values (absent optional fields as null);
fetching the created resource by its store-assigned identifier returns that
row, which differs from the insert payload only by the assigned id and
created_at. -/
theorem create_read_roundtrip
    (env : CreateEnv) (fd : FormData) (rows : List PersonRow) (newId createdAt : String)
    (hname : nameFalsy fd = false) (hup : env.uploadError = none)
    (hin : env.insertError = none) (hfresh : ∀ r ∈ rows, r.id ≠ newId) :
    ∃ ins : PersonInsert,
      Effect.insertRow ins ∈ (createAction env fd).2 ∧
      ins.name = (submittedName fd).getD "" ∧
      ins.location = optField fd "location" ∧
      ins.context = optField fd "context" ∧
      ins.their_story = optField fd "their_story" ∧
      ins.date_met = optField fd "date_met" ∧
      ins.message_to_the_world = optField fd "message_to_the_world" ∧
      selectPersonById (rows ++ [insertedRow ins newId createdAt]) newId =
        some (insertedRow ins newId createdAt) ∧
      (insertedRow ins newId createdAt).name = ins.name ∧
      (insertedRow ins newId createdAt).location = ins.location ∧
      (insertedRow ins newId createdAt).context = ins.context ∧
      (insertedRow ins newId createdAt).their_story = ins.their_story ∧
      (insertedRow ins newId createdAt).date_met = ins.date_met ∧
      (insertedRow ins newId createdAt).message_to_the_world = ins.message_to_the_world ∧
      (insertedRow ins newId createdAt).id = newId ∧
      (insertedRow ins newId createdAt).created_at = createdAt := by
  have hsel : ∀ ins : PersonInsert,
      selectPersonById (rows ++ [insertedRow ins newId createdAt]) newId =
        some (insertedRow ins newId createdAt) :=
    fun ins => selectPersonById_append_fresh rows (insertedRow ins newId createdAt) hfresh
  cases hp : resolvedPhoto fd with
  | none =>
      refine ⟨parsedInsert fd, ?_, rfl, rfl, rfl, rfl, rfl, rfl, hsel _,
        rfl, rfl, rfl, rfl, rfl, rfl, rfl, rfl⟩
      simp [createAction, hname, hp, hin]
  | some f =>
      refine ⟨{ parsedInsert fd with
          photo_url := some (publicUrl "portraits" (env.uuid ++ "-" ++ f.name)) }, ?_,
        rfl, rfl, rfl, rfl, rfl, rfl, hsel _, rfl, rfl, rfl, rfl, rfl, rfl, rfl, rfl⟩
      simp [createAction, hname, hp, hup, hin]

/-- Witness for C7: submitting name "Alice" and location "Paris" into an
empty store and reading the created resource back by its fresh
identifier. -/
theorem create_read_roundtrip_witness :
    ∃ ins : PersonInsert,
      Effect.insertRow ins ∈ (createAction ⟨"u1", none, none⟩
        [("name", FormValue.str "Alice"), ("location", FormValue.str "Paris")]).2 ∧
      ins.name = "Alice" ∧
      ins.location = some "Paris" ∧
      ins.context = none ∧
      ins.their_story = none ∧
      ins.date_met = none ∧
      ins.message_to_the_world = none ∧
      selectPersonById ([] ++ [insertedRow ins "id1" "t1"]) "id1" =
        some (insertedRow ins "id1" "t1") ∧
      (insertedRow ins "id1" "t1").name = ins.name ∧
      (insertedRow ins "id1" "t1").location = ins.location ∧
      (insertedRow ins "id1" "t1").context = ins.context ∧
      (insertedRow ins "id1" "t1").their_story = ins.their_story ∧
      (insertedRow ins "id1" "t1").date_met = ins.date_met ∧
      (insertedRow ins "id1" "t1").message_to_the_world = ins.message_to_the_world ∧
      (insertedRow ins "id1" "t1").id = "id1" ∧
      (insertedRow ins "id1" "t1").created_at = "t1" :=
  create_read_roundtrip ⟨"u1", none, none⟩
    [("name", FormValue.str "Alice"), ("location", FormValue.str "Paris")]
    [] "id1" "t1" rfl rfl rfl (by simp)

end PeopleIveMet
